import Mathlib

/-!
Verification of the RPC-client layer of the eth data extractor.

The definitions below are a shallow embedding of src/rpc.rs and
src/utils.rs.  JSON values are modelled by an inductive type, 256-bit
and 64-bit machine integers by natural numbers together with explicit
bounds, and the network by an oracle function supplied as an argument.
Rust Result values are modelled by Except String, Option by Option,
and a Rust panic by an Except error whose message starts with "panic".
-/

namespace Eth

/-- JSON values in the shape serde_json exposes them. -/
inductive Json where
  | null : Json
  | bool : Bool → Json
  | num : Int → Json
  | str : String → Json
  | arr : List Json → Json
  | obj : List (String × Json) → Json

/-- Value.as_object: Some for objects, None otherwise. -/
def Json.asObj : Json → Option (List (String × Json))
  | .obj o => some o
  | _ => none

/-- Value.as_str: Some for strings, None otherwise. -/
def Json.asStr : Json → Option String
  | .str s => some s
  | _ => none

/-- Value.as_array: Some for arrays, None otherwise. -/
def Json.asArr : Json → Option (List Json)
  | .arr a => some a
  | _ => none

/-- Key lookup in a JSON object (serde_json Map.get). -/
def lookupJ (o : List (String × Json)) (key : String) : Option Json :=
  match o with
  | [] => none
  | (k, v) :: rest => if k = key then some v else lookupJ rest key

/-- Value.get on a key: lookup when the value is an object, None otherwise. -/
def Json.get (v : Json) (key : String) : Option Json :=
  v.asObj.bind (fun o => lookupJ o key)

/-- Numeric value of one hexadecimal digit character, as char::to_digit(16). -/
def hexDigitVal (c : Char) : Option Nat :=
  if '0' ≤ c ∧ c ≤ '9' then some (c.toNat - '0'.toNat)
  else if 'a' ≤ c ∧ c ≤ 'f' then some (c.toNat - 'a'.toNat + 10)
  else if 'A' ≤ c ∧ c ≤ 'F' then some (c.toNat - 'A'.toNat + 10)
  else none

/-- Left-to-right accumulation of hex digits; None on the first non-digit. -/
def parseHexCore : List Char → Nat → Option Nat
  | [], acc => some acc
  | c :: cs, acc =>
    match hexDigitVal c with
    | some d => parseHexCore cs (acc * 16 + d)
    | none => none

/-- Hex digit run to a number: at least one digit, all characters digits. -/
def parseHexNat (cs : List Char) : Option Nat :=
  match cs with
  | [] => none
  | _ :: _ => parseHexCore cs 0

/-- Leading plus sign accepted by Rust from_str_radix on unsigned types. -/
def stripPlus : List Char → List Char
  | '+' :: rest => rest
  | cs => cs

/-- str::strip_prefix of the two characters 0x, removed at most once. -/
def strip0x : List Char → List Char
  | '0' :: 'x' :: rest => rest
  | cs => cs

/-- str::trim_start_matches of 0x: every leading occurrence removed. -/
def trimAll0x : List Char → List Char
  | '0' :: 'x' :: rest => trimAll0x rest
  | cs => cs

def u64Bound : Nat := 2 ^ 64

def u256Bound : Nat := 2 ^ 256

/-- u64::from_str_radix(s, 16): optional plus sign, hex digits, 64-bit range. -/
def u64FromStrRadix16 (cs : List Char) : Option Nat :=
  match parseHexNat (stripPlus cs) with
  | some v => if v < u64Bound then some v else none
  | none => none

/-- U256::from_str_radix(s, 16): hex digits within the 256-bit range. -/
def u256FromRadix16 (cs : List Char) : Option Nat :=
  match parseHexNat cs with
  | some v => if v < u256Bound then some v else none
  | none => none

/-- Same parse as an Except, for positions where Rust propagates with ?. -/
def u256FromRadix16E (cs : List Char) : Except String Nat :=
  match u256FromRadix16 cs with
  | some v => Except.ok v
  | none => Except.error "failed to parse hex digits"

/-- src/utils.rs hex_to_decimal: strip one optional 0x, parse base 16 as u64. -/
def hex_to_decimal (s : String) : Option Nat :=
  let clean_hex := strip0x s.data
  u64FromStrRadix16 clean_hex

/-- Hex re-encoding of a u64 with the 0x prefix, as the format string 0x{:x}
used in rpc.rs: lowercase digits, no leading zeros, the single digit 0 for
zero. -/
def u64ToHex (n : Nat) : String :=
  String.mk ('0' :: 'x' :: (if n = 0 then ['0'] else ((Nat.digits 16 n).reverse.map Nat.digitChar)))

/-- FixedBytes hex parsing (FromStr of B256 and Address): optional 0x, then
exactly the stated number of hex digits; the value is kept as a number. -/
def parseFixedBytes (nibbles : Nat) (cs : List Char) : Except String Nat :=
  let t := strip0x cs
  if t.length = nibbles then
    match parseHexNat t with
    | some v => Except.ok v
    | none => Except.error "invalid character"
  else Except.error "invalid string length"

/-- B256 FromStr: 64 hex digits. -/
def parseB256 (cs : List Char) : Except String Nat :=
  parseFixedBytes 64 cs

/-- Address FromStr: 40 hex digits. -/
def parseAddress (cs : List Char) : Except String Nat :=
  parseFixedBytes 40 cs

/-- The typed Block entity of rpc.rs, 256-bit fields as bounded numbers. -/
structure Block where
  number : Nat
  hash : Nat
  parent_hash : Nat
  timestamp : Nat
  gas_used : Nat
  gas_limit : Nat
  transactions : List Nat
  miner : Nat
  difficulty : Nat
  size : Nat
deriving Repr, DecidableEq

/-- The typed Transaction entity of rpc.rs; the Rust fields from and to are
named fromAddr and toAddr because those words are reserved in Lean. -/
structure Transaction where
  hash : Nat
  block_number : Option Nat
  fromAddr : Nat
  toAddr : Option Nat
  value : Nat
  gas : Nat
  gas_price : Nat
  gas_used : Option Nat
  status : Option Nat
deriving Repr, DecidableEq

/-- The GasStatistics summary of rpc.rs; the f64 utilization is modelled as
an exact rational. -/
structure GasStatistics where
  avg_gas_used : Nat
  avg_gas_price : Nat
  max_gas_used : Nat
  min_gas_used : Nat
  gas_utilization : ℚ
  blocks_analyzed : Nat
deriving Repr, DecidableEq

/-- obj.get(key).and_then(as_str).unwrap_or(dflt), the per-field defaulting
pattern of parse_block and parse_transaction. -/
def getStrOr (o : List (String × Json)) (key : String) (dflt : String) : String :=
  match (lookupJ o key).bind Json.asStr with
  | some s => s
  | none => dflt

/-- The repeated numeric-field pattern of parse_block: default to 0x0, trim
every leading 0x, parse base 16, propagate failure. -/
def numField (o : List (String × Json)) (key : String) : Except String Nat :=
  u256FromRadix16E (trimAll0x (getStrOr o key "0x0").data)

/-- One element of the transactions array: a bare hash string, or an object
with a hash field; anything else is dropped by filter_map. -/
def txHashOfJson (tx : Json) : Option Nat :=
  match tx.asStr with
  | some s => (parseB256 s.data).toOption
  | none => (tx.get "hash").bind (fun h => h.asStr.bind (fun s => (parseB256 s.data).toOption))

/-- obj.get transactions, as_array, filter_map over elements, default empty. -/
def parseTxHashes (v : Option Json) : List Nat :=
  match v.bind Json.asArr with
  | some a => a.filterMap txHashOfJson
  | none => []

/-- RethClient::parse_block, translated match-for-match: the top-level shape
must be an object, each scalar field defaults to a zero string when missing
or non-string, and every parse failure propagates as with the Rust ?. -/
def parse_block (value : Json) : Except String Block :=
  match value.asObj with
  | none => Except.error "Invalid block format"
  | some obj =>
  match numField obj "number" with
  | .error e => .error e
  | .ok number =>
  match parseB256 (getStrOr obj "hash" "0x0").data with
  | .error e => .error e
  | .ok hash =>
  match parseB256 (getStrOr obj "parentHash" "0x0").data with
  | .error e => .error e
  | .ok parent_hash =>
  match numField obj "timestamp" with
  | .error e => .error e
  | .ok timestamp =>
  match numField obj "gasUsed" with
  | .error e => .error e
  | .ok gas_used =>
  match numField obj "gasLimit" with
  | .error e => .error e
  | .ok gas_limit =>
  let transactions := parseTxHashes (lookupJ obj "transactions")
  match parseAddress (getStrOr obj "miner" "0x0000000000000000000000000000000000000000").data with
  | .error e => .error e
  | .ok miner =>
  match numField obj "difficulty" with
  | .error e => .error e
  | .ok difficulty =>
  match numField obj "size" with
  | .error e => .error e
  | .ok size =>
  Except.ok {
    number := number, hash := hash, parent_hash := parent_hash,
    timestamp := timestamp, gas_used := gas_used, gas_limit := gas_limit,
    transactions := transactions, miner := miner, difficulty := difficulty,
    size := size }

/-- Optional hex field of parse_transaction: get, as_str, parse, ok-flatten;
never an error, None when the field is missing or fails to parse. -/
def optU256Field (o : List (String × Json)) (key : String) : Option Nat :=
  ((lookupJ o key).bind Json.asStr).bind (fun s => u256FromRadix16 (trimAll0x s.data))

/-- RethClient::parse_transaction: both the transaction value and the receipt
value must be objects; the receipt contributes only gas_used and status. -/
def parse_transaction (tx_value receipt_value : Json) : Except String Transaction :=
  match tx_value.asObj with
  | none => Except.error "Invalid transaction format"
  | some tx_obj =>
  match receipt_value.asObj with
  | none => Except.error "Invalid receipt format"
  | some receipt_obj =>
  match parseB256 (getStrOr tx_obj "hash" "0x0").data with
  | .error e => .error e
  | .ok hash =>
  let block_number := optU256Field tx_obj "blockNumber"
  match parseAddress (getStrOr tx_obj "from" "0x0000000000000000000000000000000000000000").data with
  | .error e => .error e
  | .ok fromAddr =>
  let toAddr := ((lookupJ tx_obj "to").bind Json.asStr).bind (fun s => (parseAddress s.data).toOption)
  match numField tx_obj "value" with
  | .error e => .error e
  | .ok value =>
  match numField tx_obj "gas" with
  | .error e => .error e
  | .ok gas =>
  match numField tx_obj "gasPrice" with
  | .error e => .error e
  | .ok gas_price =>
  let gas_used := optU256Field receipt_obj "gasUsed"
  let status := optU256Field receipt_obj "status"
  Except.ok {
    hash := hash, block_number := block_number, fromAddr := fromAddr,
    toAddr := toAddr, value := value, gas := gas, gas_price := gas_price,
    gas_used := gas_used, status := status }

/-- Decimal digit value for the decimal branch of the U256 serde parser. -/
def decDigitVal (c : Char) : Option Nat :=
  if '0' ≤ c ∧ c ≤ '9' then some (c.toNat - '0'.toNat) else none

/-- Left-to-right accumulation of decimal digits. -/
def parseDecCore : List Char → Nat → Option Nat
  | [], acc => some acc
  | c :: cs, acc =>
    match decDigitVal c with
    | some d => parseDecCore cs (acc * 10 + d)
    | none => none

/-- Decimal digit run to a number: at least one digit. -/
def parseDecNat (cs : List Char) : Option Nat :=
  match cs with
  | [] => none
  | _ :: _ => parseDecCore cs 0

/-- serde deserialization of a U256 (ruint): a string parsed as hex when it
carries the 0x prefix and as decimal otherwise, or a non-negative number. -/
def deserU256 : Json → Option Nat
  | .str s =>
    match s.data with
    | '0' :: 'x' :: rest => (parseHexNat rest).bind (fun v => if v < u256Bound then some v else none)
    | cs => (parseDecNat cs).bind (fun v => if v < u256Bound then some v else none)
  | .num n => if 0 ≤ n ∧ n < (u256Bound : Int) then some n.toNat else none
  | _ => none

/-- serde deserialization of a B256: a hex string of exactly 64 digits. -/
def deserB256 : Json → Option Nat
  | .str s => (parseB256 s.data).toOption
  | _ => none

/-- serde deserialization of an Address: a hex string of exactly 40 digits. -/
def deserAddress : Json → Option Nat
  | .str s => (parseAddress s.data).toOption
  | _ => none

/-- serde deserialization of a Vec of B256: every element must decode. -/
def deserVecB256 : Json → Option (List Nat)
  | .arr a => a.mapM deserB256
  | _ => none

/-- A required serde field: missing key fails the whole deserialization. -/
def deserField (o : List (String × Json)) (key : String) (f : Json → Option Nat) : Option Nat :=
  (lookupJ o key).bind f

/-- An Option serde field: a missing key or an explicit null is None, and a
present value must deserialize. -/
def deserOptField (o : List (String × Json)) (key : String) (f : Json → Option Nat) :
    Option (Option Nat) :=
  match lookupJ o key with
  | none => some none
  | some .null => some none
  | some v => (f v).map some

/-- serde_json::from_value for Block on the cache-read path of
get_block_by_number: the derived deserializer looks the fields up under the
Rust snake_case field names (there is no rename attribute on the struct). -/
def blockFromValue (v : Json) : Option Block :=
  match v.asObj with
  | none => none
  | some o =>
  match deserField o "number" deserU256 with
  | none => none
  | some number =>
  match deserField o "hash" deserB256 with
  | none => none
  | some hash =>
  match deserField o "parent_hash" deserB256 with
  | none => none
  | some parent_hash =>
  match deserField o "timestamp" deserU256 with
  | none => none
  | some timestamp =>
  match deserField o "gas_used" deserU256 with
  | none => none
  | some gas_used =>
  match deserField o "gas_limit" deserU256 with
  | none => none
  | some gas_limit =>
  match (lookupJ o "transactions").bind deserVecB256 with
  | none => none
  | some transactions =>
  match deserField o "miner" deserAddress with
  | none => none
  | some miner =>
  match deserField o "difficulty" deserU256 with
  | none => none
  | some difficulty =>
  match deserField o "size" deserU256 with
  | none => none
  | some size =>
  some {
    number := number, hash := hash, parent_hash := parent_hash,
    timestamp := timestamp, gas_used := gas_used, gas_limit := gas_limit,
    transactions := transactions, miner := miner, difficulty := difficulty,
    size := size }

/-- serde_json::from_value for Transaction on the cache-read path of
get_transaction: required fields under snake_case names, Option fields
defaulting to None when missing. -/
def txFromValue (v : Json) : Option Transaction :=
  match v.asObj with
  | none => none
  | some o =>
  match deserField o "hash" deserB256 with
  | none => none
  | some hash =>
  match deserOptField o "block_number" deserU256 with
  | none => none
  | some block_number =>
  match deserField o "from" deserAddress with
  | none => none
  | some fromAddr =>
  match deserOptField o "to" deserAddress with
  | none => none
  | some toAddr =>
  match deserField o "value" deserU256 with
  | none => none
  | some value =>
  match deserField o "gas" deserU256 with
  | none => none
  | some gas =>
  match deserField o "gas_price" deserU256 with
  | none => none
  | some gas_price =>
  match deserOptField o "gas_used" deserU256 with
  | none => none
  | some gas_used =>
  match deserOptField o "status" deserU256 with
  | none => none
  | some status =>
  some {
    hash := hash, block_number := block_number, fromAddr := fromAddr,
    toAddr := toAddr, value := value, gas := gas, gas_price := gas_price,
    gas_used := gas_used, status := status }

/-- The observable state of a RethClient: the moka cache contents and a count
of JSON-RPC requests issued over the network.  Expiry and eviction are not
modelled: the claims under proof are about windows with no expiry between
calls.  retry_rpc_call is modelled at its success case, one request. -/
structure ClientState where
  cache : List (String × Json)
  networkCalls : Nat

/-- moka Cache::get. -/
def cacheGet (c : List (String × Json)) (k : String) : Option Json :=
  (c.find? (fun p => p.1 == k)).map Prod.snd

/-- moka Cache::insert: the new entry shadows any older entry for the key. -/
def cacheInsert (c : List (String × Json)) (k : String) (v : Json) : List (String × Json) :=
  (k, v) :: c

/-- RethClient::get_block_by_number against a network oracle giving the
eth_getBlockByNumber response for each height: try the cache, attempt a
serde decode of the cached raw value, fall through to the network on a miss
or a failed decode, parse, and cache the raw response on success. -/
def getBlockByNumber (net : Nat → Json) (block_number : Nat) (st : ClientState) :
    Except String Block × ClientState :=
  let cache_key := "block_" ++ toString block_number
  let fetch : Except String Block × ClientState :=
    let result := net block_number
    let st1 : ClientState := { st with networkCalls := st.networkCalls + 1 }
    match parse_block result with
    | .ok block => (.ok block, { st1 with cache := cacheInsert st1.cache cache_key result })
    | .error e => (.error e, st1)
  match cacheGet st.cache cache_key with
  | some cached =>
    match blockFromValue cached with
    | some block => (.ok block, st)
    | none => fetch
  | none => fetch

/-- RethClient::get_transaction against oracles for the transaction body and
the receipt: cache attempt, then two network requests, a merge through
parse_transaction, and caching of the raw transaction body on success. -/
def getTransaction (netTx netReceipt : Json) (tx_hash : String) (st : ClientState) :
    Except String Transaction × ClientState :=
  let cache_key := "tx_" ++ tx_hash
  let fetch : Except String Transaction × ClientState :=
    let st2 : ClientState := { st with networkCalls := st.networkCalls + 2 }
    match parse_transaction netTx netReceipt with
    | .ok t => (.ok t, { st2 with cache := cacheInsert st2.cache cache_key netTx })
    | .error e => (.error e, st2)
  match cacheGet st.cache cache_key with
  | some cached =>
    match txFromValue cached with
    | some t => (.ok t, st)
    | none => fetch
  | none => fetch

/-- RethClient::get_latest_block_number against the eth_blockNumber response
string: one network request, no cache read or write; the byte slice from
index 2 panics when the response is shorter (quantities are ASCII, so byte
slicing is character slicing). -/
def getLatestBlockNumber (net : String) (st : ClientState) : Except String Nat × ClientState :=
  let st1 : ClientState := { st with networkCalls := st.networkCalls + 1 }
  if net.data.length < 2 then
    (.error "panic: byte index out of bounds", st1)
  else
    match u64FromStrRadix16 (net.data.drop 2) with
    | some n => (.ok n, st1)
    | none => (.error "Failed to parse block number", st1)

/-- The loop accumulator of get_gas_statistics. -/
structure GasAcc where
  total_gas_used : Nat
  total_gas_price : Nat
  max_gas_used : Nat
  min_gas_used : Nat
  blocks_processed : Nat
deriving Repr, DecidableEq

def u64MAX : Nat := 2 ^ 64 - 1

/-- The accumulator at loop entry: zero sums, max 0, min u64::MAX. -/
def initGasAcc : GasAcc :=
  { total_gas_used := 0, total_gas_price := 0, max_gas_used := 0,
    min_gas_used := u64MAX, blocks_processed := 0 }

/-- One iteration of the gas-statistics loop: a failed fetch is skipped; on
success the gas used is converted U256 to u64 (a panic when out of range)
and accumulated with u64 additions (a panic on overflow, debug semantics). -/
def gasStep (fetch : Nat → Option Block) (acc : Except String GasAcc) (block_num : Nat) :
    Except String GasAcc :=
  match acc with
  | .error e => .error e
  | .ok a =>
    match fetch block_num with
    | none => .ok a
    | some block =>
      if block.gas_used < u64Bound then
        if a.total_gas_used + block.gas_used < u64Bound then
          if a.total_gas_price + 25000000000 < u64Bound then
            .ok {
              total_gas_used := a.total_gas_used + block.gas_used,
              total_gas_price := a.total_gas_price + 25000000000,
              max_gas_used := max a.max_gas_used block.gas_used,
              min_gas_used := min a.min_gas_used block.gas_used,
              blocks_processed := a.blocks_processed + 1 }
          else .error "panic: attempt to add with overflow"
        else .error "panic: attempt to add with overflow"
      else .error "panic: U256 to u64 conversion overflow"

/-- The inclusive fetch window start_block..=latest of get_gas_statistics,
with start_block = latest.saturating_sub(block_count). -/
def gasWindow (latest block_count : Nat) : List Nat :=
  List.range' (latest - block_count) (latest + 1 - (latest - block_count))

/-- RethClient::get_gas_statistics given the resolved head height and a fetch
oracle standing for get_block_by_number: fold the loop over the window, fail
with the no-data error when nothing was processed, otherwise average with
u64 integer division and report the exact utilization ratio. -/
def getGasStatistics (fetch : Nat → Option Block) (latest block_count : Nat) :
    Except String GasStatistics :=
  match (gasWindow latest block_count).foldl (gasStep fetch) (.ok initGasAcc) with
  | .error e => .error e
  | .ok a =>
    if a.blocks_processed = 0 then
      .error "No blocks found for gas statistics"
    else
      .ok {
        avg_gas_used := a.total_gas_used / a.blocks_processed,
        avg_gas_price := a.total_gas_price / a.blocks_processed,
        max_gas_used := a.max_gas_used,
        min_gas_used := a.min_gas_used,
        gas_utilization := ((a.total_gas_used / a.blocks_processed : Nat) : ℚ) / 30000000 * 100,
        blocks_analyzed := a.blocks_processed }

/-- src/utils.rs calculate_gas_utilization, f64 arithmetic modelled as exact
rational arithmetic: the zero-limit branch returns 0 and is the only path
that avoids the division. -/
def calculate_gas_utilization (gas_used gas_limit : Nat) : ℚ :=
  if gas_limit = 0 then 0 else ((gas_used : ℚ) / (gas_limit : ℚ)) * 100

/-- The backoff crate state relevant to retry_rpc_call: the current interval
and the elapsed time, both in milliseconds, as exact rationals.  Operation
execution time is modelled as zero, so elapsed time is the sum of the sleeps
performed so far. -/
structure BackoffState where
  current_interval : ℚ
  elapsed : ℚ

/-- ExponentialBackoffBuilder::new().with_max_elapsed_time(Some(30 s)):
initial interval 500 ms, randomization factor one half, multiplier three
halves, maximum interval 60000 ms. -/
def initialBackoff : BackoffState := { current_interval := 500, elapsed := 0 }

def maxElapsedMs : ℚ := 30000

/-- ExponentialBackoff::next_backoff with the jitter factor supplied as an
argument in the half to three-halves range: None once the elapsed budget is
exceeded, otherwise the randomized delay and the grown interval. -/
def nextBackoff (jitterFactor : ℚ) (st : BackoffState) : Option (ℚ × BackoffState) :=
  if maxElapsedMs < st.elapsed then none
  else
    let delay := st.current_interval * jitterFactor
    some (delay, { current_interval := min (st.current_interval * (3 / 2)) 60000,
                   elapsed := st.elapsed + delay })

/-- backoff::future::retry over a list of attempt outcomes (None a transient
failure, some a success): returns the result together with the number of
attempts made and the number of failure diagnostics printed. -/
def retryLoop {α : Type} (jit : Nat → ℚ) :
    List (Option α) → BackoffState → Nat → Nat → Except String α × Nat × Nat
  | [], _, attempts, diags => (.error "RPC call failed", attempts, diags)
  | o :: rest, st, attempts, diags =>
    match o with
    | some v => (.ok v, attempts + 1, diags)
    | none =>
      match nextBackoff (jit attempts) st with
      | none => (.error "RPC call failed", attempts + 1, diags + 1)
      | some (_, st1) => retryLoop jit rest st1 (attempts + 1) (diags + 1)

/-- RethClient::retry_rpc_call: run the retry loop from the freshly built
backoff policy. -/
def retry_rpc_call {α : Type} (jit : Nat → ℚ) (outcomes : List (Option α)) :
    Except String α × Nat × Nat :=
  retryLoop jit outcomes initialBackoff 0 0

/-! Concrete wire values used to evaluate the model. -/

def h64a : String := "0xaaaaaaaaaaaaaaaaaaaaaaaaaaaaaaaaaaaaaaaaaaaaaaaaaaaaaaaaaaaaaaaa"

def h64b : String := "0xbbbbbbbbbbbbbbbbbbbbbbbbbbbbbbbbbbbbbbbbbbbbbbbbbbbbbbbbbbbbbbbb"

def a40 : String := "0x1234567890123456789012345678901234567890"

/-- A well-formed eth_getBlockByNumber response as the node sends it:
camelCase field names and an empty transaction list. -/
def rawBlockJson : Json := .obj [
  ("number", .str "0x10"),
  ("hash", .str h64a),
  ("parentHash", .str h64b),
  ("timestamp", .str "0x5f5e100"),
  ("gasUsed", .str "0x5208"),
  ("gasLimit", .str "0x1c9c380"),
  ("transactions", .arr []),
  ("miner", .str a40),
  ("difficulty", .str "0x0"),
  ("size", .str "0x220")]

/-- A network oracle that always answers with the well-formed block. -/
def c1Net : Nat → Json := fun _ => rawBlockJson

/-- A well-formed eth_getTransactionByHash response body. -/
def c2TxJson : Json := .obj [("hash", .str h64a), ("from", .str a40)]

/-- Claim C1: get_block_by_number called twice in immediate succession is
claimed to perform at most one network call.  The code refutes this: the
first call succeeds and caches the raw camelCase response, but the cache-hit
path decodes it with the serde-derived Block deserializer whose field names
are snake_case, so the cached entry never deserializes and the second call
issues a second eth_getBlockByNumber request, giving two network calls. -/
theorem c1_second_call_issues_second_request :
    ((getBlockByNumber c1Net 16 { cache := [], networkCalls := 0 }).1.toOption.map
        Block.gas_used = some 21000) ∧
    ((getBlockByNumber c1Net 16
        (getBlockByNumber c1Net 16 { cache := [], networkCalls := 0 }).2).2.networkCalls = 2) :=
  ⟨rfl, rfl⟩

/-- Claim C2, counterexample: a transaction fetch whose receipt response is
entirely absent (JSON null, the pending case) does not produce a Transaction
with gas_used and status None; parse_transaction rejects the null receipt
with the Invalid receipt format error, which get_transaction propagates. -/
theorem c2_null_receipt_is_decode_error :
    (getTransaction c2TxJson Json.null "0xabcd" { cache := [], networkCalls := 0 }).1 =
      Except.error "Invalid receipt format" :=
  rfl

/-- Whenever parse_transaction succeeds, the gas_used and status fields of
the result are exactly the optional fields read from the receipt object. -/
theorem parse_tx_receipt_fields (tv rv : Json) (t : Transaction)
    (h : parse_transaction tv rv = .ok t) :
    ∃ ro, rv.asObj = some ro ∧ t.gas_used = optU256Field ro "gasUsed" ∧
      t.status = optU256Field ro "status" := by
  unfold parse_transaction at h
  split at h
  · exact Except.noConfusion h
  split at h
  · exact Except.noConfusion h
  next ro hro =>
  refine ⟨ro, hro, ?_⟩
  split at h
  · exact Except.noConfusion h
  split at h
  · exact Except.noConfusion h
  split at h
  · exact Except.noConfusion h
  split at h
  · exact Except.noConfusion h
  split at h
  · exact Except.noConfusion h
  cases h
  exact ⟨rfl, rfl⟩

/-- Claim C2, amended: when the transaction body decodes and the receipt
response is a JSON object that lacks the gasUsed and status fields, the
merged Transaction has gas_used None and status None; a receipt that is
entirely absent (null) instead fails with the Invalid receipt format
error. -/
theorem c2_receipt_object_missing_fields (netTx : Json) (rfields : List (String × Json))
    (tx_hash : String) (st : ClientState) (t : Transaction)
    (hcache : cacheGet st.cache ("tx_" ++ tx_hash) = none)
    (hgas : lookupJ rfields "gasUsed" = none)
    (hstatus : lookupJ rfields "status" = none)
    (hok : (getTransaction netTx (.obj rfields) tx_hash st).1 = .ok t) :
    t.gas_used = none ∧ t.status = none := by
  have hpt : parse_transaction netTx (.obj rfields) = .ok t := by
    unfold getTransaction at hok
    simp only [hcache] at hok
    cases hp : parse_transaction netTx (Json.obj rfields) with
    | error e => rw [hp] at hok; exact Except.noConfusion hok
    | ok t2 =>
      rw [hp] at hok
      simp at hok
      rw [hok]
  obtain ⟨ro, hro, hg, hs⟩ := parse_tx_receipt_fields _ _ _ hpt
  have hro2 : rfields = ro := by
    simpa [Json.asObj] using hro
  subst hro2
  constructor
  · rw [hg]; simp [optU256Field, hgas]
  · rw [hs]; simp [optU256Field, hstatus]

/-- Witness for the amended C2 on concrete values: an empty receipt object
and a well-formed transaction body give a pending transaction. -/
theorem c2_receipt_object_missing_fields_witness :
    (cacheGet ([] : List (String × Json)) ("tx_" ++ "0xabcd") = none) ∧
    ((getTransaction c2TxJson (.obj []) "0xabcd" { cache := [], networkCalls := 0 }).1 =
      .ok { hash := 77194726158210796949047323339125271902179989777093709359638389338608753093290,
            block_number := none,
            fromAddr := 103929005307130220006098923584552504982110632080,
            toAddr := none, value := 0, gas := 0, gas_price := 0,
            gas_used := none, status := none }) ∧
    ({ hash := 77194726158210796949047323339125271902179989777093709359638389338608753093290,
       block_number := none,
       fromAddr := 103929005307130220006098923584552504982110632080,
       toAddr := none, value := 0, gas := 0, gas_price := 0,
       gas_used := none, status := none : Transaction }.gas_used = none ∧
     { hash := 77194726158210796949047323339125271902179989777093709359638389338608753093290,
       block_number := none,
       fromAddr := 103929005307130220006098923584552504982110632080,
       toAddr := none, value := 0, gas := 0, gas_price := 0,
       gas_used := none, status := none : Transaction }.status = none) :=
  ⟨rfl, rfl,
    c2_receipt_object_missing_fields c2TxJson [] "0xabcd" { cache := [], networkCalls := 0 }
      _ rfl rfl rfl rfl⟩

/-- Claim C3: the block decoder is claimed to succeed on every top-level
object, substituting zero defaults for missing fields.  The code refutes
this for the digest fields: on the empty object the missing hash field
defaults to the string 0x0, which is not a valid 32-byte digest, so the
whole decode fails with the invalid string length error. -/
theorem c3_missing_hash_field_fails_decode :
    parse_block (Json.obj []) = Except.error "invalid string length" :=
  rfl

/-- Claim C8: get_latest_block_number bypasses the cache entirely: the cache
contents are unchanged, exactly one fresh network request is issued, and the
returned value is the same whatever the cache state. -/
theorem c8_latest_block_bypasses_cache (net : String) (st st2 : ClientState) :
    (getLatestBlockNumber net st).2.cache = st.cache ∧
    (getLatestBlockNumber net st).2.networkCalls = st.networkCalls + 1 ∧
    (getLatestBlockNumber net st).1 = (getLatestBlockNumber net st2).1 := by
  refine ⟨?_, ?_, ?_⟩
  · unfold getLatestBlockNumber
    split
    · rfl
    · split <;> rfl
  · unfold getLatestBlockNumber
    split
    · rfl
    · split <;> rfl
  · unfold getLatestBlockNumber
    split
    · rfl
    · cases hu : u64FromStrRadix16 (net.data.drop 2) <;> simp [hu]

/-- Claim C9: gas utilization is the ratio gas used over gas limit times one
hundred when the limit is nonzero, and is defined as zero when the limit is
zero, so the division-by-zero branch is never reached. -/
theorem c9_gas_utilization_branches (gas_used gas_limit : Nat) :
    (gas_limit = 0 → calculate_gas_utilization gas_used gas_limit = 0) ∧
    (gas_limit ≠ 0 →
      calculate_gas_utilization gas_used gas_limit = ((gas_used : ℚ) / (gas_limit : ℚ)) * 100) := by
  constructor <;> intro h <;> simp [calculate_gas_utilization, h]

/-- Witness for C9 at the inputs of the Rust unit test: a zero limit gives
zero, and fifteen million over thirty million gives the fifty percent
ratio. -/
theorem c9_gas_utilization_branches_witness :
    calculate_gas_utilization 100 0 = 0 ∧
    calculate_gas_utilization 15000000 30000000 = ((15000000 : ℚ) / (30000000 : ℚ)) * 100 :=
  ⟨(c9_gas_utilization_branches 100 0).1 rfl,
   (c9_gas_utilization_branches 15000000 30000000).2 (by norm_num)⟩

/-- A failed fetch leaves the accumulator untouched, so a run of failures
leaves the whole fold untouched. -/
theorem gasFold_all_none (fetch : Nat → Option Block) (l : List Nat) (a : GasAcc)
    (h : ∀ b ∈ l, fetch b = none) :
    l.foldl (gasStep fetch) (.ok a) = .ok a := by
  induction l with
  | nil => rfl
  | cons x xs ih =>
    have hx : fetch x = none := h x (by simp)
    have hstep : gasStep fetch (.ok a) x = .ok a := by simp [gasStep, hx]
    rw [List.foldl_cons, hstep]
    exact ih (fun b hb => h b (by simp [hb]))

/-- A panic inside the loop propagates through the rest of the fold. -/
theorem gasFold_error (fetch : Nat → Option Block) (l : List Nat) (e : String) :
    l.foldl (gasStep fetch) (.error e) = .error e := by
  induction l with
  | nil => rfl
  | cons x xs ih =>
    rw [List.foldl_cons]
    exact ih

/-- Claim C4: when every block fetch in the aggregation window fails, the
aggregation returns the explicit no-data error: no division by zero is
reached, no panic occurs and no statistics value is produced at all. -/
theorem c4_all_fetches_fail_no_data_error (fetch : Nat → Option Block)
    (latest block_count : Nat)
    (h : ∀ b ∈ gasWindow latest block_count, fetch b = none) :
    getGasStatistics fetch latest block_count = .error "No blocks found for gas statistics" := by
  unfold getGasStatistics
  rw [gasFold_all_none fetch _ _ h]
  rfl

/-- Witness for C4: a window of six heights whose fetches all fail. -/
theorem c4_all_fetches_fail_no_data_error_witness :
    (∀ b ∈ gasWindow 10 5, (fun (_ : Nat) => (none : Option Block)) b = none) ∧
    getGasStatistics (fun _ => none) 10 5 = .error "No blocks found for gas statistics" :=
  ⟨fun _ _ => rfl, c4_all_fetches_fail_no_data_error (fun _ => none) 10 5 (fun _ _ => rfl)⟩

/-- When exactly one height in the list has a successful fetch, the fold from
the entry accumulator produces the single-block accumulator. -/
theorem gasFold_single (fetch : Nat → Option Block) (l : List Nat) (m : Nat) (blk : Block)
    (hfilter : l.filter (fun b => (fetch b).isSome) = [m])
    (hm : fetch m = some blk) (hg : blk.gas_used < u64Bound) :
    l.foldl (gasStep fetch) (.ok initGasAcc) =
      .ok { total_gas_used := blk.gas_used, total_gas_price := 25000000000,
            max_gas_used := blk.gas_used, min_gas_used := blk.gas_used,
            blocks_processed := 1 } := by
  induction l with
  | nil => exact absurd hfilter (by simp)
  | cons x xs ih =>
    cases hx : fetch x with
    | none =>
      rw [List.filter_cons_of_neg (by simp [hx])] at hfilter
      have hstep : gasStep fetch (.ok initGasAcc) x = .ok initGasAcc := by
        simp [gasStep, hx]
      rw [List.foldl_cons, hstep]
      exact ih hfilter
    | some b =>
      rw [List.filter_cons_of_pos (by simp [hx])] at hfilter
      have hxm : x = m := (List.cons.injEq _ _ _ _ ▸ hfilter).1
      subst hxm
      have hxs : xs.filter (fun b => (fetch b).isSome) = [] :=
        (List.cons.injEq _ _ _ _ ▸ hfilter).2
      have hnone : ∀ b ∈ xs, fetch b = none := by
        intro b hbmem
        have hfb := List.filter_eq_nil_iff.mp hxs b hbmem
        cases hfb2 : fetch b with
        | none => rfl
        | some y => rw [hfb2] at hfb; simp at hfb
      have hstep : gasStep fetch (.ok initGasAcc) x =
          .ok { total_gas_used := blk.gas_used, total_gas_price := 25000000000,
                max_gas_used := blk.gas_used, min_gas_used := blk.gas_used,
                blocks_processed := 1 } := by
        have hmin : min u64MAX blk.gas_used = blk.gas_used := by
          refine min_eq_right ?_
          have := Nat.le_pred_of_lt hg
          simpa [u64Bound, u64MAX] using this
        simp only [gasStep, hm, initGasAcc]
        rw [if_pos hg]
        rw [if_pos (show (0 : Nat) + blk.gas_used < u64Bound from by simpa using hg)]
        rw [if_pos (show (0 : Nat) + 25000000000 < u64Bound from by norm_num [u64Bound])]
        simp [hmin]
      rw [List.foldl_cons, hstep]
      exact gasFold_all_none fetch xs _ hnone

/-- Claim C5: when exactly one block fetch in the window succeeds, the
statistics report one block analyzed and average, minimum and maximum gas
used all equal to that block's gas used. -/
theorem c5_single_success_stats (fetch : Nat → Option Block)
    (latest block_count m : Nat) (blk : Block)
    (hfilter : (gasWindow latest block_count).filter (fun b => (fetch b).isSome) = [m])
    (hm : fetch m = some blk) (hg : blk.gas_used < u64Bound) :
    getGasStatistics fetch latest block_count =
      .ok { avg_gas_used := blk.gas_used, avg_gas_price := 25000000000,
            max_gas_used := blk.gas_used, min_gas_used := blk.gas_used,
            gas_utilization := ((blk.gas_used : Nat) : ℚ) / 30000000 * 100,
            blocks_analyzed := 1 } := by
  unfold getGasStatistics
  rw [gasFold_single fetch _ m blk hfilter hm hg]
  simp

/-- Witness for C5: in the six-block window five fetches fail and the fetch
at height seven returns a block with gas used 21000. -/
theorem c5_single_success_stats_witness :
    ((gasWindow 10 5).filter
        (fun b => ((fun n => if n = 7 then
            some { number := 0, hash := 0, parent_hash := 0, timestamp := 0,
                   gas_used := 21000, gas_limit := 0, transactions := [],
                   miner := 0, difficulty := 0, size := 0 : Block }
          else none) b).isSome) = [7]) ∧
    getGasStatistics
        (fun n => if n = 7 then
            some { number := 0, hash := 0, parent_hash := 0, timestamp := 0,
                   gas_used := 21000, gas_limit := 0, transactions := [],
                   miner := 0, difficulty := 0, size := 0 : Block }
          else none) 10 5 =
      .ok { avg_gas_used := 21000, avg_gas_price := 25000000000,
            max_gas_used := 21000, min_gas_used := 21000,
            gas_utilization := ((21000 : Nat) : ℚ) / 30000000 * 100,
            blocks_analyzed := 1 } :=
  ⟨by decide, c5_single_success_stats _ 10 5 7 _ (by decide) rfl (by decide)⟩

/-- The ordering invariant the loop maintains: the running minimum times the
processed count bounds the running total from below and the running maximum
times the processed count bounds it from above. -/
def GasInv (a : GasAcc) : Prop :=
  a.min_gas_used * a.blocks_processed ≤ a.total_gas_used ∧
  a.total_gas_used ≤ a.max_gas_used * a.blocks_processed

/-- The fold preserves the ordering invariant and advances the processed
count by at most the number of heights consumed. -/
theorem gasFold_inv (fetch : Nat → Option Block) (l : List Nat) :
    ∀ a b : GasAcc, GasInv a → l.foldl (gasStep fetch) (.ok a) = .ok b →
      GasInv b ∧ b.blocks_processed ≤ a.blocks_processed + l.length ∧
      a.blocks_processed ≤ b.blocks_processed := by
  induction l with
  | nil =>
    intro a b ha h
    cases h
    exact ⟨ha, by simp, le_refl _⟩
  | cons x xs ih =>
    intro a b ha h
    rw [List.foldl_cons] at h
    cases hstep : gasStep fetch (.ok a) x with
    | error e =>
      rw [hstep, gasFold_error] at h
      exact Except.noConfusion h
    | ok a2 =>
      rw [hstep] at h
      have hstep2 : GasInv a2 ∧ a2.blocks_processed ≤ a.blocks_processed + 1 ∧
          a.blocks_processed ≤ a2.blocks_processed := by
        cases hx : fetch x with
        | none =>
          simp only [gasStep, hx, Except.ok.injEq] at hstep
          subst hstep
          exact ⟨ha, by omega, le_refl _⟩
        | some blk =>
          simp only [gasStep, hx] at hstep
          split at hstep
          · split at hstep
            · split at hstep
              · simp only [Except.ok.injEq] at hstep
                subst hstep
                refine ⟨⟨?_, ?_⟩, by simp, by simp⟩
                · have h1 : min a.min_gas_used blk.gas_used * a.blocks_processed ≤
                      a.total_gas_used :=
                    le_trans (mul_le_mul_right' (min_le_left _ _) _) ha.1
                  have h2 : min a.min_gas_used blk.gas_used ≤ blk.gas_used :=
                    min_le_right _ _
                  calc min a.min_gas_used blk.gas_used * (a.blocks_processed + 1)
                      = min a.min_gas_used blk.gas_used * a.blocks_processed +
                        min a.min_gas_used blk.gas_used := by ring
                    _ ≤ a.total_gas_used + blk.gas_used := Nat.add_le_add h1 h2
                · have h1 : a.total_gas_used ≤ max a.max_gas_used blk.gas_used *
                      a.blocks_processed :=
                    le_trans ha.2 (mul_le_mul_right' (le_max_left _ _) _)
                  have h2 : blk.gas_used ≤ max a.max_gas_used blk.gas_used :=
                    le_max_right _ _
                  calc a.total_gas_used + blk.gas_used
                      ≤ max a.max_gas_used blk.gas_used * a.blocks_processed +
                        max a.max_gas_used blk.gas_used := Nat.add_le_add h1 h2
                    _ = max a.max_gas_used blk.gas_used * (a.blocks_processed + 1) := by ring
              · exact Except.noConfusion hstep
            · exact Except.noConfusion hstep
          · exact Except.noConfusion hstep
      obtain ⟨hinv2, hle2, hmono2⟩ := hstep2
      obtain ⟨hinvb, hleb, hmonob⟩ := ih a2 b hinv2 h
      exact ⟨hinvb, by simp only [List.length_cons]; omega, le_trans hmono2 hmonob⟩

/-- Claim C10: whenever the aggregation returns statistics, the minimum gas
used is at most the average, the average is at most the maximum, and the
number of blocks analyzed is at least one and at most the size of the fetch
window. -/
theorem c10_stats_invariants (fetch : Nat → Option Block) (latest block_count : Nat)
    (s : GasStatistics)
    (h : getGasStatistics fetch latest block_count = .ok s) :
    s.min_gas_used ≤ s.avg_gas_used ∧ s.avg_gas_used ≤ s.max_gas_used ∧
    1 ≤ s.blocks_analyzed ∧ s.blocks_analyzed ≤ (gasWindow latest block_count).length := by
  unfold getGasStatistics at h
  split at h
  · exact Except.noConfusion h
  next a heq =>
  split at h
  · exact Except.noConfusion h
  next hz =>
  have hinv0 : GasInv initGasAcc := by
    constructor <;> simp [initGasAcc]
  obtain ⟨hinv, hlen, _⟩ := gasFold_inv fetch _ initGasAcc a hinv0 heq
  have hpos : 0 < a.blocks_processed := Nat.pos_of_ne_zero hz
  simp only [Except.ok.injEq] at h
  subst h
  refine ⟨?_, ?_, hpos, ?_⟩
  · exact (Nat.le_div_iff_mul_le hpos).mpr hinv.1
  · calc a.total_gas_used / a.blocks_processed
        ≤ a.max_gas_used * a.blocks_processed / a.blocks_processed :=
          Nat.div_le_div_right hinv.2
      _ = a.max_gas_used := Nat.mul_div_cancel _ hpos
  · simpa [initGasAcc] using hlen

/-- Witness for C10: both heights of a two-block window succeed with gas
used 21000, and the reported statistics satisfy every inequality. -/
theorem c10_stats_invariants_witness :
    (getGasStatistics
        (fun _ => some { number := 0, hash := 0, parent_hash := 0, timestamp := 0,
                         gas_used := 21000, gas_limit := 0, transactions := [],
                         miner := 0, difficulty := 0, size := 0 : Block }) 2 1 =
      .ok { avg_gas_used := 21000, avg_gas_price := 25000000000,
            max_gas_used := 21000, min_gas_used := 21000,
            gas_utilization := ((21000 : Nat) : ℚ) / 30000000 * 100,
            blocks_analyzed := 2 }) ∧
    (21000 ≤ 21000 ∧ 21000 ≤ 21000 ∧ 1 ≤ 2 ∧ 2 ≤ (gasWindow 2 1).length) :=
  ⟨by rfl, by
    have := c10_stats_invariants
      (fun _ => some { number := 0, hash := 0, parent_hash := 0, timestamp := 0,
                       gas_used := 21000, gas_limit := 0, transactions := [],
                       miner := 0, difficulty := 0, size := 0 : Block }) 2 1
      { avg_gas_used := 21000, avg_gas_price := 25000000000,
        max_gas_used := 21000, min_gas_used := 21000,
        gas_utilization := ((21000 : Nat) : ℚ) / 30000000 * 100,
        blocks_analyzed := 2 } (by rfl)
    simpa using this⟩

/-- Claim C6: an RPC call that fails transiently on the first two attempts
and succeeds on the third returns the successful result through the retry
wrapper, with exactly three attempts made and two failure diagnostics
printed, for every admissible jitter sequence of the backoff policy. -/
theorem c6_two_failures_then_success {α : Type} (v : α) (jit : Nat → ℚ)
    (hlo : ∀ k, 1 / 2 ≤ jit k) (hhi : ∀ k, jit k ≤ 3 / 2) :
    retry_rpc_call jit [none, none, some v] = (.ok v, 3, 2) := by
  have h0 : nextBackoff (jit 0) initialBackoff =
      some (500 * jit 0, { current_interval := 750, elapsed := 0 + 500 * jit 0 }) := by
    unfold nextBackoff initialBackoff maxElapsedMs
    rw [if_neg (by norm_num)]
    norm_num
  have h1 : nextBackoff (jit 1) { current_interval := 750, elapsed := 0 + 500 * jit 0 } =
      some (750 * jit 1,
        { current_interval := 1125, elapsed := (0 + 500 * jit 0) + 750 * jit 1 }) := by
    unfold nextBackoff maxElapsedMs
    rw [if_neg (by have := hhi 0; have := hlo 0; simp only [not_lt]; nlinarith)]
    norm_num
  simp only [retry_rpc_call, retryLoop, h0, h1]

/-- Witness for C6 with the centre-of-range jitter factor one. -/
theorem c6_two_failures_then_success_witness :
    (∀ k : Nat, 1 / 2 ≤ ((fun _ => 1 : Nat → ℚ) k) ∧ ((fun _ => 1 : Nat → ℚ) k) ≤ 3 / 2) ∧
    retry_rpc_call (fun _ => 1 : Nat → ℚ) [none, none, some (7 : Nat)] = (.ok 7, 3, 2) :=
  ⟨fun _ => ⟨by norm_num, by norm_num⟩,
   c6_two_failures_then_success 7 (fun _ => 1) (fun _ => by norm_num) (fun _ => by norm_num)⟩

/-- Every digit below sixteen is rendered by digitChar and read back by
hexDigitVal unchanged. -/
theorem hexDigitVal_digitChar : ∀ d < 16, hexDigitVal (Nat.digitChar d) = some d := by
  decide

/-- No digit below sixteen renders as a plus sign. -/
theorem digitChar_ne_plus : ∀ d < 16, Nat.digitChar d ≠ '+' := by
  decide

/-- Reading a rendered digit list accumulates the corresponding number. -/
theorem parseHexCore_map_digitChar (M : List Nat) (hM : ∀ d ∈ M, d < 16) :
    ∀ acc : Nat, parseHexCore (M.map Nat.digitChar) acc =
      some (M.foldl (fun a d => a * 16 + d) acc) := by
  induction M with
  | nil => intro acc; rfl
  | cons d M ih =>
    intro acc
    have hd : d < 16 := hM d (by simp)
    rw [List.map_cons, List.foldl_cons]
    show (match hexDigitVal (Nat.digitChar d) with
      | some d2 => parseHexCore (M.map Nat.digitChar) (acc * 16 + d2)
      | none => none) = _
    rw [hexDigitVal_digitChar d hd]
    exact ih (fun x hx => hM x (by simp [hx])) (acc * 16 + d)

/-- The most-significant-first fold of a digit list recovers its value. -/
theorem foldl_reverse_digits (L : List Nat) :
    ∀ acc : Nat, L.reverse.foldl (fun a d => a * 16 + d) acc =
      acc * 16 ^ L.length + Nat.ofDigits 16 L := by
  induction L with
  | nil => intro acc; simp
  | cons d L ih =>
    intro acc
    rw [List.reverse_cons, List.foldl_append, ih acc]
    rw [List.foldl_cons, List.foldl_nil, Nat.ofDigits_cons, List.length_cons, pow_succ]
    ring

/-- A list whose characters are all hex digits is untouched by the plus-sign
strip of from_str_radix. -/
theorem stripPlus_eq_self (cs : List Char) (h : ∀ c ∈ cs, c ≠ '+') : stripPlus cs = cs := by
  match cs with
  | [] => rfl
  | c :: rest =>
    unfold stripPlus
    split
    next heq =>
      exact absurd (List.head_eq_of_cons_eq heq.symm).symm (h c (by simp))
    next => rfl

/-- Parsing the rendered hex digits of any number gives back the number. -/
theorem parseHexNat_hexDigits (n : Nat) :
    parseHexNat (if n = 0 then ['0']
      else ((Nat.digits 16 n).reverse.map Nat.digitChar)) = some n := by
  by_cases h : n = 0
  · subst h; rfl
  · rw [if_neg h]
    have hne : Nat.digits 16 n ≠ [] := Nat.digits_ne_nil_iff_ne_zero.mpr h
    have hlt : ∀ d ∈ (Nat.digits 16 n).reverse, d < 16 := by
      intro d hd
      exact Nat.digits_lt_base (by norm_num) (List.mem_reverse.mp hd)
    have hcore := parseHexCore_map_digitChar (Nat.digits 16 n).reverse hlt 0
    rw [foldl_reverse_digits (Nat.digits 16 n) 0, Nat.ofDigits_digits,
      zero_mul, zero_add] at hcore
    have hne2 : (Nat.digits 16 n).reverse.map Nat.digitChar ≠ [] := by
      simp [hne]
    obtain ⟨c, cs, hcs⟩ := List.exists_cons_of_ne_nil hne2
    rw [hcs]
    rw [hcs] at hcore
    exact hcore

/-- No character of the rendered hex digits is a plus sign. -/
theorem hexDigits_ne_plus (n : Nat) :
    ∀ c ∈ (if n = 0 then ['0']
      else ((Nat.digits 16 n).reverse.map Nat.digitChar)), c ≠ '+' := by
  by_cases h : n = 0
  · rw [if_pos h]; intro c hc; simp at hc; subst hc; decide
  · rw [if_neg h]
    intro c hc
    obtain ⟨d, hd, hdc⟩ := List.mem_map.mp hc
    have : d < 16 := Nat.digits_lt_base (by norm_num) (List.mem_reverse.mp hd)
    rw [← hdc]
    exact digitChar_ne_plus d this

/-- Decoding the hex rendering of any value in the 64-bit range succeeds and
returns exactly that value. -/
theorem hex_to_decimal_u64ToHex (n : Nat) (hn : n < u64Bound) :
    hex_to_decimal (u64ToHex n) = some n := by
  unfold hex_to_decimal u64ToHex u64FromStrRadix16
  show (match parseHexNat (stripPlus (strip0x ('0' :: 'x' :: _))) with
    | some v => if v < u64Bound then some v else none
    | none => none) = some n
  rw [show ∀ rest, strip0x ('0' :: 'x' :: rest) = rest from fun _ => rfl]
  rw [stripPlus_eq_self _ (hexDigits_ne_plus n)]
  rw [parseHexNat_hexDigits n]
  exact if_pos hn

/-- Claim C7: whenever hex_to_decimal accepts a string, re-encoding the
decoded value as 0x-prefixed hex and decoding again yields the same number,
so decode and re-encode is the identity on the represented value. -/
theorem c7_hex_round_trip (s : String) (n : Nat) (h : hex_to_decimal s = some n) :
    hex_to_decimal (u64ToHex n) = some n := by
  have hn : n < u64Bound := by
    unfold hex_to_decimal u64FromStrRadix16 at h
    dsimp only at h
    split at h
    next v hv =>
      split at h
      next hlt =>
        cases h
        exact hlt
      next => exact Option.noConfusion h
    next => exact Option.noConfusion h
  exact hex_to_decimal_u64ToHex n hn

/-- Witness for C7 on the string 0x10 from the Rust unit test. -/
theorem c7_hex_round_trip_witness :
    hex_to_decimal "0x10" = some 16 ∧ hex_to_decimal (u64ToHex 16) = some 16 :=
  ⟨rfl, c7_hex_round_trip "0x10" 16 rfl⟩

end Eth
